import Mathlib

/-!
Verification development for the Novellia Pets backend.

The definitions below are a shallow embedding of the backend of the
repository: the zod validation schemas, the relational store (tables
`pets` and `medical_records`, created with a foreign key
`medical_records.pet_id REFERENCES pets(id) ON DELETE CASCADE` and
column-level CHECK constraints, see `initializeSchema` in the database
module), and the Express request handlers of `recordController.ts` and
the pet controller.

Conventions of the embedding:
* A JSON request body is a structure of `Option String` fields —
  `none` models an absent (`undefined`) field, `some s` a present
  string field.
* Timestamps (`CURRENT_TIMESTAMP`) are passed in as an explicit
  `now : Nat` parameter; `SERIAL` columns are modelled by sequence
  counters carried in the store state.
* Each handler is a pure function `DB → input → Response × DB`
  returning the HTTP response and the new store state.
* JavaScript truthiness on optional string fields (`!x`, `x || null`)
  is modelled explicitly (`strFalsy`, `jsOrNull`).
-/

namespace NovelliaPets

/-! ### Validation layer (the zod schemas)

zod's `safeParse` either succeeds or produces a list of issues, each
carrying a `path` and a `message`.  A schema built with `.refine` runs
the refinements only when the base object parse succeeded; a failed
refinement adds its configured issue.  Field checks of the base object
are collected across all fields in declaration order. -/

structure FieldError where
  path : List String
  message : String
  deriving DecidableEq

/-- Message of a zod issue for an absent required field (zod default). -/
def msgRequired : String := "Required"

def msgNameRequired : String := "Name is required"

def msgNameTooLong : String := "Name is too long"

def msgInvalidDate : String := "Invalid date format. Use YYYY-MM-DD"

/-- Custom errorMap message of the `record_type` enum in `createRecordSchema`. -/
def msgRecordType : String := "Record type must be \"vaccine\" or \"allergy\""

def msgVaccineDate : String := "Vaccine records require a date"

def msgAllergySeverity : String := "Allergy records require severity (mild or severe)"

/-- zod's default message for an invalid enum value:
`Invalid enum value. Expected <options>, received '<received>'`. -/
def enumMessage (expected received : String) : String :=
  "Invalid enum value. Expected " ++ expected ++ ", received \x27" ++ received ++ "\x27"

def expectedSeverity : String := "\x27mild\x27 | \x27severe\x27"

def expectedRecordType : String := "\x27vaccine\x27 | \x27allergy\x27"

/-- The regex `^\d{4}-\d{2}-\d{2}$` of the date fields, as an executable
check: exactly ten characters, digits except for dashes at positions 4 and 7. -/
def dateFormatOk (s : String) : Bool :=
  match s.data with
  | [y1, y2, y3, y4, s1, m1, m2, s2, d1, d2] =>
    y1.isDigit && y2.isDigit && y3.isDigit && y4.isDigit &&
    (s1 == '-') && m1.isDigit && m2.isDigit && (s2 == '-') && d1.isDigit && d2.isDigit
  | _ => false

/-- JavaScript truthiness test for an optional string field: `!x` is true
exactly when the field is absent (`undefined`) or the empty string. -/
def strFalsy : Option String → Bool
  | none => true
  | some s => s == ""

/-- The JavaScript expression `x || null` on an optional string field:
an empty string collapses to `null`; an absent field is `null`. -/
def jsOrNull : Option String → Option String
  | none => none
  | some s => if s == "" then none else some s

/-- Checks of a required `z.string().min(1, msgReq).max(maxLen, msgLong)` field. -/
def checkStrReq (field : String) (maxLen : Nat) (msgReq msgLong : String) :
    Option String → List FieldError
  | none => [⟨[field], msgRequired⟩]
  | some s =>
    (if s.length < 1 then [⟨[field], msgReq⟩] else []) ++
    (if s.length > maxLen then [⟨[field], msgLong⟩] else [])

/-- Checks of an optional `z.string().min(1, msgReq).max(maxLen, msgLong).optional()` field. -/
def checkStrOpt (field : String) (maxLen : Nat) (msgReq msgLong : String) :
    Option String → List FieldError
  | none => []
  | some s =>
    (if s.length < 1 then [⟨[field], msgReq⟩] else []) ++
    (if s.length > maxLen then [⟨[field], msgLong⟩] else [])

/-- Checks of the optional date-format field
`z.string().regex(..., 'Invalid date format. Use YYYY-MM-DD').optional()`. -/
def checkDateOpt (field : String) : Option String → List FieldError
  | none => []
  | some s => if dateFormatOk s then [] else [⟨[field], msgInvalidDate⟩]

/-- Checks of the optional `z.enum(['mild', 'severe']).optional()` field
(no custom errorMap, so the zod default enum message applies). -/
def checkSeverityOpt : Option String → List FieldError
  | none => []
  | some s =>
    if s == "mild" || s == "severe" then []
    else [⟨["severity"], enumMessage expectedSeverity s⟩]

/-! #### Medical-record bodies and schemas (`recordController.ts`) -/

/-- A JSON body of a record create/update request (fields in the shape
order of the schema: record_type, name, date, reactions, severity). -/
structure RecordBody where
  record_type : Option String
  name : Option String
  date : Option String
  reactions : Option String
  severity : Option String
  deriving DecidableEq

/-- Base-object issues of `createRecordSchema` (before the two refinements). -/
def createRecordBaseErrors (b : RecordBody) : List FieldError :=
  (match b.record_type with
   | none => [⟨["record_type"], msgRecordType⟩]
   | some s =>
     if s == "vaccine" || s == "allergy" then []
     else [⟨["record_type"], msgRecordType⟩]) ++
  checkStrReq "name" 255 msgNameRequired msgNameTooLong b.name ++
  checkDateOpt "date" b.date ++
  checkSeverityOpt b.severity

/-- Issues of the two `.refine` clauses of `createRecordSchema`.  zod only
runs them when the base parse succeeded. -/
def createRecordRefineErrors (b : RecordBody) : List FieldError :=
  (if b.record_type == some "vaccine" && strFalsy b.date then
    [⟨["date"], msgVaccineDate⟩] else []) ++
  (if b.record_type == some "allergy" && strFalsy b.severity then
    [⟨["severity"], msgAllergySeverity⟩] else [])

/-- `createRecordSchema.safeParse`: the full issue list; empty means success. -/
def createRecordValidate (b : RecordBody) : List FieldError :=
  if (createRecordBaseErrors b).isEmpty then createRecordRefineErrors b
  else createRecordBaseErrors b

/-- `updateRecordSchema.safeParse`: every field optional, no refinements.
The `record_type` enum here has no custom errorMap. -/
def updateRecordValidate (b : RecordBody) : List FieldError :=
  (match b.record_type with
   | none => []
   | some s =>
     if s == "vaccine" || s == "allergy" then []
     else [⟨["record_type"], enumMessage expectedRecordType s⟩]) ++
  checkStrOpt "name" 255 msgNameRequired msgNameTooLong b.name ++
  checkDateOpt "date" b.date ++
  checkSeverityOpt b.severity

/-! #### Pet bodies and schemas (pet controller) -/

/-- A JSON body of a pet create/update request. -/
structure PetBody where
  name : Option String
  animal_type : Option String
  owner_name : Option String
  date_of_birth : Option String
  deriving DecidableEq

/-- `createPetSchema.safeParse`: all four fields required. -/
def createPetValidate (b : PetBody) : List FieldError :=
  checkStrReq "name" 255 "Name is required" "Name is too long" b.name ++
  checkStrReq "animal_type" 100 "Animal type is required" "Animal type is too long" b.animal_type ++
  checkStrReq "owner_name" 255 "Owner name is required" "Owner name is too long" b.owner_name ++
  (match b.date_of_birth with
   | none => [⟨["date_of_birth"], msgRequired⟩]
   | some s => if dateFormatOk s then [] else [⟨["date_of_birth"], msgInvalidDate⟩])

/-- `updatePetSchema.safeParse`: the same checks, every field optional. -/
def updatePetValidate (b : PetBody) : List FieldError :=
  checkStrOpt "name" 255 "Name is required" "Name is too long" b.name ++
  checkStrOpt "animal_type" 100 "Animal type is required" "Animal type is too long" b.animal_type ++
  checkStrOpt "owner_name" 255 "Owner name is required" "Owner name is too long" b.owner_name ++
  checkDateOpt "date_of_birth" b.date_of_birth

/-! ### The relational store

Rows of the two tables created by `initializeSchema`.  `SERIAL` ids are
modelled by per-table sequence counters; `DATE` columns hold their
`YYYY-MM-DD` text; `created_at` / `updated_at` timestamps are `Nat`. -/

/-- A row of the `pets` table (all data columns `NOT NULL`). -/
structure PetRow where
  id : Nat
  name : String
  animal_type : String
  owner_name : String
  date_of_birth : String
  created_at : Nat
  updated_at : Nat
  deriving DecidableEq

/-- A row of the `medical_records` table (`date`, `reactions`, `severity`
are nullable). -/
structure RecordRow where
  id : Nat
  pet_id : Nat
  record_type : String
  name : String
  date : Option String
  reactions : Option String
  severity : Option String
  created_at : Nat
  updated_at : Nat
  deriving DecidableEq

/-- The database state: the two tables plus the `SERIAL` sequences. -/
structure DB where
  pets : List PetRow
  medical_records : List RecordRow
  petSeq : Nat
  recordSeq : Nat
  deriving DecidableEq

/-- `SELECT * FROM pets WHERE id = $1`, first row if any. -/
def findPet (db : DB) (id : Nat) : Option PetRow :=
  db.pets.find? (fun p => p.id == id)

/-- `SELECT * FROM medical_records WHERE id = $1`, first row if any. -/
def findRecord (db : DB) (id : Nat) : Option RecordRow :=
  db.medical_records.find? (fun r => r.id == id)

/-! ### The SQL ordering of `getRecordsByPetId`

`ORDER BY date DESC, created_at DESC` under PostgreSQL semantics: for a
`DESC` key the default null ordering is `NULLS FIRST`, so null-dated
rows sort before every dated row; dated rows sort by date descending
(`YYYY-MM-DD` text compares like the calendar date); ties are broken by
`created_at` descending. -/

/-- Strict lexicographic order on character lists (the collation of the
date text columns); executable, unlike `String.lt`. -/
def charListLt : List Char → List Char → Bool
  | [], [] => false
  | [], _ :: _ => true
  | _ :: _, [] => false
  | a :: as, b :: bs => if a < b then true else if b < a then false else charListLt as bs

/-- Row `a` may precede row `b` in the result of
`ORDER BY date DESC, created_at DESC` (PostgreSQL `DESC` ⇒ nulls first). -/
def recordLEb (a b : RecordRow) : Bool :=
  match a.date, b.date with
  | none, none => decide (b.created_at ≤ a.created_at)
  | none, some _ => true
  | some _, none => false
  | some x, some y =>
    if charListLt y.data x.data then true
    else if charListLt x.data y.data then false
    else decide (b.created_at ≤ a.created_at)

/-- The propositional form of `recordLEb`, used as the sorting relation. -/
def recordLE (a b : RecordRow) : Prop := recordLEb a b = true

instance : DecidableRel recordLE := fun a b => instDecidableEqBool (recordLEb a b) true

/-! ### Request handlers -/

/-- Body of an HTTP JSON response. -/
inductive RespBody where
  /-- An error object `\x7b error: msg \x7d`. -/
  | errorMsg (msg : String)
  /-- `\x7b error: 'Validation failed', details \x7d` with the zod issue list. -/
  | validationFailed (details : List FieldError)
  /-- A single pet row. -/
  | petRow (p : PetRow)
  /-- A single medical-record row. -/
  | recordRow (r : RecordRow)
  /-- An array of medical-record rows. -/
  | recordRows (rs : List RecordRow)
  /-- A confirmation object `\x7b message: msg \x7d`. -/
  | message (msg : String)
  /-- Express's default 500 handler (a rejected store query forwarded by `next(err)`). -/
  | internalError
  deriving DecidableEq

/-- An HTTP response: status code and JSON body. -/
structure Response where
  status : Nat
  body : RespBody
  deriving DecidableEq

/-- Handler `getRecordsByPetId` (GET /records/pet/:petId): pet-existence
check, then the ordered `SELECT` over `medical_records`. -/
def getRecordsByPetId (db : DB) (petId : Nat) : Response × DB :=
  match findPet db petId with
  | none => (⟨404, .errorMsg "Pet not found"⟩, db)
  | some _ =>
    (⟨200, .recordRows
      (List.insertionSort recordLE (db.medical_records.filter (fun r => r.pet_id == petId)))⟩, db)

/-- Handler `createRecord` (POST /records/pet/:petId): validation with
`createRecordSchema` first, then the pet-existence check, then the
`INSERT` (optional params inserted as `x || null`).  The last match arm
models the store rejecting a `NULL` in a `NOT NULL` column; it is
unreachable because validation already requires both fields. -/
def createRecord (db : DB) (petId : Nat) (b : RecordBody) (now : Nat) : Response × DB :=
  let errs := createRecordValidate b
  if errs.isEmpty then
    match findPet db petId with
    | none => (⟨404, .errorMsg "Pet not found"⟩, db)
    | some _ =>
      match b.record_type, b.name with
      | some rt, some nm =>
        let row : RecordRow :=
          { id := db.recordSeq + 1, pet_id := petId, record_type := rt, name := nm,
            date := jsOrNull b.date, reactions := jsOrNull b.reactions,
            severity := jsOrNull b.severity, created_at := now, updated_at := now }
        (⟨201, .recordRow row⟩,
         { db with medical_records := db.medical_records ++ [row], recordSeq := db.recordSeq + 1 })
      | _, _ => (⟨500, .internalError⟩, db)
  else (⟨400, .validationFailed errs⟩, db)

/-- Handler `updateRecord` (PUT /records/:id): record-existence check,
then validation with `updateRecordSchema`, then the merge-by-presence
`UPDATE` — a provided field overwrites, `date` provided as the empty
string becomes `NULL`, an absent field keeps its stored value —
bumping `updated_at` and returning the updated row. -/
def updateRecord (db : DB) (id : Nat) (b : RecordBody) (now : Nat) : Response × DB :=
  match findRecord db id with
  | none => (⟨404, .errorMsg "Medical record not found"⟩, db)
  | some existing =>
    let errs := updateRecordValidate b
    if errs.isEmpty then
      let row : RecordRow :=
        { existing with
          record_type := match b.record_type with | some v => v | none => existing.record_type,
          name := match b.name with | some v => v | none => existing.name,
          date := match b.date with
                  | some v => if v == "" then none else some v
                  | none => existing.date,
          reactions := match b.reactions with | some v => some v | none => existing.reactions,
          severity := match b.severity with | some v => some v | none => existing.severity,
          updated_at := now }
      (⟨200, .recordRow row⟩,
       { db with medical_records := db.medical_records.map (fun r => if r.id == id then row else r) })
    else (⟨400, .validationFailed errs⟩, db)

/-- Handler `deleteRecord` (DELETE /records/:id). -/
def deleteRecord (db : DB) (id : Nat) : Response × DB :=
  match findRecord db id with
  | none => (⟨404, .errorMsg "Medical record not found"⟩, db)
  | some _ =>
    (⟨200, .message "Medical record deleted successfully"⟩,
     { db with medical_records := db.medical_records.filter (fun r => !(r.id == id)) })

/-- Handler `createPet` (POST /pets): validation with `createPetSchema`,
then the duplicate check `SELECT * FROM pets WHERE name = $1 AND
owner_name = $2`, then the `INSERT`.  The last arm models a `NULL`
reaching a `NOT NULL` column (unreachable: validation requires all four
fields). -/
def createPet (db : DB) (b : PetBody) (now : Nat) : Response × DB :=
  let errs := createPetValidate b
  if errs.isEmpty then
    match b.name, b.animal_type, b.owner_name, b.date_of_birth with
    | some nm, some aty, some ow, some dob =>
      if (db.pets.filter (fun p => p.name == nm && p.owner_name == ow)).isEmpty then
        let row : PetRow :=
          { id := db.petSeq + 1, name := nm, animal_type := aty, owner_name := ow,
            date_of_birth := dob, created_at := now, updated_at := now }
        (⟨201, .petRow row⟩, { db with pets := db.pets ++ [row], petSeq := db.petSeq + 1 })
      else (⟨400, .errorMsg "Pet already exists"⟩, db)
    | _, _, _, _ => (⟨500, .internalError⟩, db)
  else (⟨400, .validationFailed errs⟩, db)

/-- Handler `updatePet` (PUT /pets/:id): pet-existence check, then
validation with `updatePetSchema`, then the full-replace `UPDATE` of all
four editable columns from the request parameters.  The node-postgres
driver sends an absent (`undefined`) body field as SQL `NULL`, and every
pet data column is `NOT NULL`, so a body missing any field makes the
`UPDATE` fail and the handler forward the error (500). -/
def updatePet (db : DB) (id : Nat) (b : PetBody) (now : Nat) : Response × DB :=
  match findPet db id with
  | none => (⟨404, .errorMsg "Pet not found"⟩, db)
  | some existing =>
    let errs := updatePetValidate b
    if errs.isEmpty then
      match b.name, b.animal_type, b.owner_name, b.date_of_birth with
      | some nm, some aty, some ow, some dob =>
        let row : PetRow :=
          { existing with name := nm, animal_type := aty, owner_name := ow,
                          date_of_birth := dob, updated_at := now }
        (⟨200, .petRow row⟩,
         { db with pets := db.pets.map (fun p => if p.id == id then row else p) })
      | _, _, _, _ => (⟨500, .internalError⟩, db)
    else (⟨400, .validationFailed errs⟩, db)

/-- Handler `deletePet` (DELETE /pets/:id): existence check, then
`DELETE FROM pets WHERE id = $1`; the schema's `ON DELETE CASCADE`
on `medical_records.pet_id` removes every record of the pet. -/
def deletePet (db : DB) (id : Nat) : Response × DB :=
  match findPet db id with
  | none => (⟨404, .errorMsg "Pet not found"⟩, db)
  | some _ =>
    (⟨200, .message "Pet deleted successfully"⟩,
     { db with pets := db.pets.filter (fun p => !(p.id == id)),
               medical_records := db.medical_records.filter (fun r => !(r.pet_id == id)) })

/-! ### Order lemmas for the SQL sort relation -/

theorem charListLt_irrefl (a : List Char) : charListLt a a = false := by
  induction a with
  | nil => rfl
  | cons x xs ih => simp [charListLt, lt_irrefl, ih]

theorem charListLt_trans (a : List Char) :
    ∀ b c : List Char, charListLt a b = true → charListLt b c = true →
      charListLt a c = true := by
  induction a with
  | nil =>
    intro b c h1 h2
    cases b with
    | nil => simp [charListLt] at h1
    | cons y ys =>
      cases c with
      | nil => simp [charListLt] at h2
      | cons z zs => simp [charListLt]
  | cons x xs ih =>
    intro b c h1 h2
    cases b with
    | nil => simp [charListLt] at h1
    | cons y ys =>
      cases c with
      | nil => simp [charListLt] at h2
      | cons z zs =>
        simp only [charListLt] at h1 h2 ⊢
        rcases lt_trichotomy x y with hxy | hxy | hxy
        · rcases lt_trichotomy y z with hyz | hyz | hyz
          · rw [if_pos (lt_trans hxy hyz)]
          · subst hyz; rw [if_pos hxy]
          · rw [if_neg (lt_asymm hyz), if_pos hyz] at h2; simp at h2
        · subst hxy
          rw [if_neg (lt_irrefl x), if_neg (lt_irrefl x)] at h1
          rcases lt_trichotomy x z with hxz | hxz | hxz
          · rw [if_pos hxz]
          · subst hxz
            rw [if_neg (lt_irrefl x), if_neg (lt_irrefl x)] at h2 ⊢
            exact ih ys zs h1 h2
          · rw [if_neg (lt_asymm hxz), if_pos hxz] at h2; simp at h2
        · rw [if_neg (lt_asymm hxy), if_pos hxy] at h1; simp at h1

theorem charListLt_asymm_eq (a : List Char) :
    ∀ b : List Char, charListLt a b = false → charListLt b a = false → a = b := by
  induction a with
  | nil =>
    intro b h1 _
    cases b with
    | nil => rfl
    | cons y ys => simp [charListLt] at h1
  | cons x xs ih =>
    intro b h1 h2
    cases b with
    | nil => simp [charListLt] at h2
    | cons y ys =>
      simp only [charListLt] at h1 h2
      rcases lt_trichotomy x y with hxy | hxy | hxy
      · rw [if_pos hxy] at h1; simp at h1
      · subst hxy
        rw [if_neg (lt_irrefl x), if_neg (lt_irrefl x)] at h1 h2
        rw [ih ys h1 h2]
      · rw [if_pos hxy] at h2; simp at h2

theorem recordLE_total (a b : RecordRow) : recordLE a b ∨ recordLE b a := by
  unfold recordLE
  cases hda : a.date with
  | none =>
    cases hdb : b.date with
    | none =>
      simp only [recordLEb, hda, hdb, decide_eq_true_eq]
      exact Nat.le_total _ _
    | some y => left; simp [recordLEb, hda, hdb]
  | some x =>
    cases hdb : b.date with
    | none => right; simp [recordLEb, hda, hdb]
    | some y =>
      simp only [recordLEb, hda, hdb]
      by_cases h1 : charListLt y.data x.data = true
      · left; simp [h1]
      · by_cases h2 : charListLt x.data y.data = true
        · right; simp [h2]
        · rcases Nat.le_total b.created_at a.created_at with h | h
          · left; simp [h1, h2, h]
          · right; simp [h1, h2, h]

theorem recordLE_trans (a b c : RecordRow) :
    recordLE a b → recordLE b c → recordLE a c := by
  intro h1 h2
  unfold recordLE at h1 h2 ⊢
  cases hda : a.date with
  | none =>
    cases hdc : c.date with
    | some z => simp [recordLEb, hda, hdc]
    | none =>
      cases hdb : b.date with
      | none =>
        simp only [recordLEb, hda, hdb, hdc, decide_eq_true_eq] at h1 h2 ⊢
        exact Nat.le_trans h2 h1
      | some y => simp [recordLEb, hdb, hdc] at h2
  | some x =>
    cases hdb : b.date with
    | none => simp [recordLEb, hda, hdb] at h1
    | some y =>
      cases hdc : c.date with
      | none => simp [recordLEb, hdb, hdc] at h2
      | some z =>
        simp only [recordLEb, hda, hdb, hdc] at h1 h2 ⊢
        by_cases hyx : charListLt y.data x.data = true
        · by_cases hzy : charListLt z.data y.data = true
          · rw [if_pos (charListLt_trans _ _ _ hzy hyx)]
          · rw [if_neg hzy] at h2
            by_cases hyz : charListLt y.data z.data = true
            · rw [if_pos hyz] at h2; simp at h2
            · have hzy' : y.data = z.data := charListLt_asymm_eq _ _
                (by simpa using hyz) (by simpa using hzy)
              rw [← hzy', if_pos hyx]
        · rw [if_neg hyx] at h1
          by_cases hxy : charListLt x.data y.data = true
          · rw [if_pos hxy] at h1; simp at h1
          · rw [if_neg hxy] at h1
            have hxy' : x.data = y.data := charListLt_asymm_eq _ _
              (by simpa using hxy) (by simpa using hyx)
            by_cases hzy : charListLt z.data y.data = true
            · rw [hxy', if_pos hzy]
            · rw [if_neg hzy] at h2
              by_cases hyz : charListLt y.data z.data = true
              · rw [if_pos hyz] at h2; simp at h2
              · rw [if_neg hyz] at h2
                have hyz' : y.data = z.data := charListLt_asymm_eq _ _
                  (by simpa using hyz) (by simpa using hzy)
                rw [hxy', hyz']
                rw [if_neg (by simp [charListLt_irrefl]), if_neg (by simp [charListLt_irrefl])]
                simp only [decide_eq_true_eq] at h1 h2 ⊢
                exact Nat.le_trans h2 h1

/-! ### Claim C1 -/

/-- Claim C1, as stated, is false: `createRecord` runs `safeParse` before
the parent-pet existence check.  On an empty store (no pet with id 1) and
an empty body, the handler answers 400 Validation failed, not the 404 the
claim requires. -/
theorem createRecord_missing_pet_invalid_payload_400 :
    createRecord ⟨[], [], 0, 0⟩ 1 ⟨none, none, none, none, none⟩ 0 =
      (⟨400, .validationFailed
        [⟨["record_type"], msgRecordType⟩, ⟨["name"], msgRequired⟩]⟩, ⟨[], [], 0, 0⟩) ∧
    (createRecord ⟨[], [], 0, 0⟩ 1 ⟨none, none, none, none, none⟩ 0).1.status ≠ 404 := by
  constructor
  · rfl
  · decide

/-- Claim C1 amended: in `createRecord` payload validation runs first and
the parent-pet existence check second, so an invalid payload yields 400
even when the pet is missing, and a missing parent yields 404 'Pet not
found' only for payloads that pass validation. -/
theorem createRecord_validation_before_existence
    (db : DB) (petId : Nat) (b : RecordBody) (now : Nat) :
    (createRecordValidate b ≠ [] →
      createRecord db petId b now = (⟨400, .validationFailed (createRecordValidate b)⟩, db)) ∧
    (createRecordValidate b = [] → findPet db petId = none →
      createRecord db petId b now = (⟨404, .errorMsg "Pet not found"⟩, db)) := by
  constructor
  · intro hne
    have hni : (createRecordValidate b).isEmpty = false := by
      cases h : createRecordValidate b with
      | nil => exact absurd h hne
      | cons e es => rfl
    simp [createRecord, hni]
  · intro hv hfind
    simp [createRecord, hv, hfind]

/-- Witness for `createRecord_validation_before_existence` at concrete
inputs: an empty body on a missing pet gives 400; a valid vaccine body on
a missing pet gives 404. -/
theorem createRecord_validation_before_existence_witness :
    createRecord ⟨[], [], 0, 0⟩ 1 ⟨none, none, none, none, none⟩ 0 =
      (⟨400, .validationFailed
        (createRecordValidate ⟨none, none, none, none, none⟩)⟩, ⟨[], [], 0, 0⟩) ∧
    createRecord ⟨[], [], 0, 0⟩ 1
        ⟨some "vaccine", some "Rabies", some "2024-03-01", none, none⟩ 0 =
      (⟨404, .errorMsg "Pet not found"⟩, ⟨[], [], 0, 0⟩) :=
  ⟨(createRecord_validation_before_existence ⟨[], [], 0, 0⟩ 1
      ⟨none, none, none, none, none⟩ 0).1 (by decide),
   (createRecord_validation_before_existence ⟨[], [], 0, 0⟩ 1
      ⟨some "vaccine", some "Rabies", some "2024-03-01", none, none⟩ 0).2
      (by decide) (by decide)⟩

/-! ### Claim C2 -/

/-- Claim C2 is the intended behaviour (the handler's own comment and its
`date === "" ? null : date` branch normalize an explicit empty-string date
to NULL), but the code never reaches that branch: `updateRecordSchema`
validates a present `date` against the `YYYY-MM-DD` regex, the empty
string fails it, and the update is rejected with 400 instead of storing
NULL.  Evaluated here at an existing record and the body with only
`date` set to the empty string. -/
theorem updateRecord_empty_date_rejected :
    updateRecord
      ⟨[⟨1, "Rex", "dog", "Alice", "2020-01-01", 0, 0⟩],
       [⟨1, 1, "vaccine", "Rabies", some "2024-03-01", none, none, 3, 3⟩], 1, 1⟩
      1 ⟨none, none, some "", none, none⟩ 9 =
      (⟨400, .validationFailed [⟨["date"], msgInvalidDate⟩]⟩,
       ⟨[⟨1, "Rex", "dog", "Alice", "2020-01-01", 0, 0⟩],
        [⟨1, 1, "vaccine", "Rabies", some "2024-03-01", none, none, 3, 3⟩], 1, 1⟩) ∧
    (updateRecord
      ⟨[⟨1, "Rex", "dog", "Alice", "2020-01-01", 0, 0⟩],
       [⟨1, 1, "vaccine", "Rabies", some "2024-03-01", none, none, 3, 3⟩], 1, 1⟩
      1 ⟨none, none, some "", none, none⟩ 9).1.status ≠ 200 := by
  constructor
  · rfl
  · decide

/-! ### Claim C3 -/

/-- Claim C3: deleting an existing pet succeeds with 200 and, through the
schema's `ON DELETE CASCADE`, leaves no medical record referencing the
deleted pet id in the store. -/
theorem deletePet_cascades_records (db : DB) (pid : Nat) (p : PetRow)
    (h : findPet db pid = some p) :
    (deletePet db pid).1 = ⟨200, .message "Pet deleted successfully"⟩ ∧
    (deletePet db pid).2.medical_records.filter (fun r => r.pet_id == pid) = [] := by
  unfold deletePet
  rw [h]
  refine ⟨rfl, ?_⟩
  simp only [List.filter_filter]
  have : ∀ r : RecordRow, ((r.pet_id == pid) && !(r.pet_id == pid)) = false := by
    intro r; cases r.pet_id == pid <;> rfl
  simp [this]

/-- Witness for `deletePet_cascades_records`: a store with one pet owning
two records and a second pet owning one; deleting pet 1 removes both of
its records. -/
theorem deletePet_cascades_records_witness :
    (deletePet
      ⟨[⟨1, "Rex", "dog", "Alice", "2020-01-01", 0, 0⟩,
        ⟨2, "Milo", "cat", "Bob", "2021-05-05", 0, 0⟩],
       [⟨1, 1, "vaccine", "Rabies", some "2024-03-01", none, none, 1, 1⟩,
        ⟨2, 1, "allergy", "Pollen", none, none, some "mild", 2, 2⟩,
        ⟨3, 2, "vaccine", "Distemper", some "2024-04-01", none, none, 3, 3⟩], 2, 3⟩
      1).1 = ⟨200, .message "Pet deleted successfully"⟩ ∧
    (deletePet
      ⟨[⟨1, "Rex", "dog", "Alice", "2020-01-01", 0, 0⟩,
        ⟨2, "Milo", "cat", "Bob", "2021-05-05", 0, 0⟩],
       [⟨1, 1, "vaccine", "Rabies", some "2024-03-01", none, none, 1, 1⟩,
        ⟨2, 1, "allergy", "Pollen", none, none, some "mild", 2, 2⟩,
        ⟨3, 2, "vaccine", "Distemper", some "2024-04-01", none, none, 3, 3⟩], 2, 3⟩
      1).2.medical_records.filter (fun r => r.pet_id == 1) = [] :=
  deletePet_cascades_records _ 1 ⟨1, "Rex", "dog", "Alice", "2020-01-01", 0, 0⟩ (by decide)

/-! ### Claim C4 -/

/-- Claim C4, as stated, is false for the falsy-but-present empty string:
zod refinements only run when the base object parse succeeds, and an
empty-string `date` already fails the base regex check, so the issue is
'Invalid date format. Use YYYY-MM-DD' on `date`, not 'Vaccine records
require a date'. -/
theorem createRecord_vaccine_empty_date_message :
    createRecordValidate ⟨some "vaccine", some "Rabies", some "", none, none⟩ =
      [⟨["date"], msgInvalidDate⟩] ∧
    FieldError.mk ["date"] msgVaccineDate ∉
      createRecordValidate ⟨some "vaccine", some "Rabies", some "", none, none⟩ := by
  constructor
  · rfl
  · decide

/-- Claim C4 amended: for a vaccine input whose base field checks pass,
an absent `date` is rejected by the refinement with exactly the issue
'Vaccine records require a date' on `date`; a present empty-string `date`
is instead rejected by the base regex check, with the issue
'Invalid date format. Use YYYY-MM-DD' on `date`. -/
theorem createRecord_vaccine_date_rule (b : RecordBody)
    (hrt : b.record_type = some "vaccine") :
    (b.date = none → createRecordBaseErrors b = [] →
      createRecordValidate b = [⟨["date"], msgVaccineDate⟩]) ∧
    (b.date = some "" →
      FieldError.mk ["date"] msgInvalidDate ∈ createRecordValidate b) := by
  constructor
  · intro hd hbase
    simp [createRecordValidate, hbase, createRecordRefineErrors, hrt, hd, strFalsy]
  · intro hd
    have hmem : FieldError.mk ["date"] msgInvalidDate ∈ createRecordBaseErrors b := by
      simp [createRecordBaseErrors, hd, checkDateOpt, dateFormatOk]
    have hne : (createRecordBaseErrors b).isEmpty = false := by
      cases hB : createRecordBaseErrors b with
      | nil => rw [hB] at hmem; simp at hmem
      | cons e es => rfl
    unfold createRecordValidate
    rw [hne]
    simpa using hmem

/-- Witness for `createRecord_vaccine_date_rule`: a vaccine body without
a date yields the refinement issue; one with an empty-string date
contains the regex issue. -/
theorem createRecord_vaccine_date_rule_witness :
    createRecordValidate ⟨some "vaccine", some "Rabies", none, none, none⟩ =
      [⟨["date"], msgVaccineDate⟩] ∧
    FieldError.mk ["date"] msgInvalidDate ∈
      createRecordValidate ⟨some "vaccine", some "Rabies", some "", none, some "mild"⟩ :=
  ⟨(createRecord_vaccine_date_rule ⟨some "vaccine", some "Rabies", none, none, none⟩
      rfl).1 rfl (by decide),
   (createRecord_vaccine_date_rule ⟨some "vaccine", some "Rabies", some "", none, some "mild"⟩
      rfl).2 rfl⟩

/-! ### Claim C5 -/

/-- Claim C5, as stated, is false for the falsy-but-present empty string:
an empty-string `severity` fails the base enum check, which carries zod's
default enum message, not 'Allergy records require severity (mild or
severe)'; the refinement never runs because the base parse failed. -/
theorem createRecord_allergy_empty_severity_message :
    createRecordValidate ⟨some "allergy", some "Pollen", none, none, some ""⟩ =
      [⟨["severity"], enumMessage expectedSeverity ""⟩] ∧
    FieldError.mk ["severity"] msgAllergySeverity ∉
      createRecordValidate ⟨some "allergy", some "Pollen", none, none, some ""⟩ := by
  constructor
  · rfl
  · decide

/-- Claim C5 amended: for an allergy input whose base field checks pass,
an absent `severity` is rejected by the refinement with exactly the issue
'Allergy records require severity (mild or severe)' on `severity`; a
present `severity` other than 'mild' or 'severe' (the empty string
included) is rejected by the base enum check with zod's default enum
message on `severity`. -/
theorem createRecord_allergy_severity_rule (b : RecordBody)
    (hrt : b.record_type = some "allergy") :
    (b.severity = none → createRecordBaseErrors b = [] →
      createRecordValidate b = [⟨["severity"], msgAllergySeverity⟩]) ∧
    (∀ s, b.severity = some s → s ≠ "mild" → s ≠ "severe" →
      FieldError.mk ["severity"] (enumMessage expectedSeverity s) ∈
        createRecordValidate b) := by
  constructor
  · intro hs hbase
    simp [createRecordValidate, hbase, createRecordRefineErrors, hrt, hs, strFalsy]
  · intro s hs hm hv
    have hcond : (s == "mild" || s == "severe") = false := by
      simp [hm, hv]
    have hmem : FieldError.mk ["severity"] (enumMessage expectedSeverity s) ∈
        createRecordBaseErrors b := by
      simp [createRecordBaseErrors, hs, checkSeverityOpt, hcond]
    have hne : (createRecordBaseErrors b).isEmpty = false := by
      cases hB : createRecordBaseErrors b with
      | nil => rw [hB] at hmem; simp at hmem
      | cons e es => rfl
    unfold createRecordValidate
    rw [hne]
    simpa using hmem

/-- Witness for `createRecord_allergy_severity_rule`: an allergy body
without a severity yields the refinement issue; one with an empty-string
severity contains the enum issue. -/
theorem createRecord_allergy_severity_rule_witness :
    createRecordValidate ⟨some "allergy", some "Pollen", none, none, none⟩ =
      [⟨["severity"], msgAllergySeverity⟩] ∧
    FieldError.mk ["severity"] (enumMessage expectedSeverity "bad") ∈
      createRecordValidate ⟨some "allergy", some "Pollen", none, none, some "bad"⟩ :=
  ⟨(createRecord_allergy_severity_rule ⟨some "allergy", some "Pollen", none, none, none⟩
      rfl).1 rfl (by decide),
   (createRecord_allergy_severity_rule ⟨some "allergy", some "Pollen", none, none, some "bad"⟩
      rfl).2 "bad" rfl (by decide) (by decide)⟩

/-! ### Claim C6 -/

/-- Claim C6: a valid pet-creation payload whose (name, owner_name) pair
matches a stored pet is rejected with 400 'Pet already exists' and the
store is unchanged, whatever its animal_type and date_of_birth; with no
matching pair the pet is inserted and returned with 201. -/
theorem createPet_unique_name_owner (db : DB) (nm aty ow dob : String) (now : Nat)
    (hv : createPetValidate ⟨some nm, some aty, some ow, some dob⟩ = []) :
    ((∃ p ∈ db.pets, p.name = nm ∧ p.owner_name = ow) →
      createPet db ⟨some nm, some aty, some ow, some dob⟩ now =
        (⟨400, .errorMsg "Pet already exists"⟩, db)) ∧
    ((∀ p ∈ db.pets, ¬(p.name = nm ∧ p.owner_name = ow)) →
      createPet db ⟨some nm, some aty, some ow, some dob⟩ now =
        (⟨201, .petRow ⟨db.petSeq + 1, nm, aty, ow, dob, now, now⟩⟩,
         { db with pets := db.pets ++ [⟨db.petSeq + 1, nm, aty, ow, dob, now, now⟩],
                   petSeq := db.petSeq + 1 })) := by
  constructor
  · rintro ⟨p, hp, hnm, how⟩
    have hmem : p ∈ db.pets.filter (fun q => q.name == nm && q.owner_name == ow) := by
      simp [List.mem_filter, hp, hnm, how]
    have hne : (db.pets.filter (fun q => q.name == nm && q.owner_name == ow)).isEmpty = false := by
      cases hF : db.pets.filter (fun q => q.name == nm && q.owner_name == ow) with
      | nil => rw [hF] at hmem; simp at hmem
      | cons e es => rfl
    simp [createPet, hv, hne]
  · intro hnone
    have hnil : db.pets.filter (fun q => q.name == nm && q.owner_name == ow) = [] := by
      apply List.filter_eq_nil_iff.mpr
      intro q hq
      have hq' := hnone q hq
      simp only [Bool.and_eq_true, beq_iff_eq, not_and]
      intro h1 h2
      exact hq' ⟨h1, h2⟩
    simp [createPet, hv, hnil]

/-- Witness for `createPet_unique_name_owner`: with pet (Rex, Alice)
stored, creating (Rex, Alice) with a different animal_type and birth date
is rejected; creating (Milo, Alice) is inserted with 201. -/
theorem createPet_unique_name_owner_witness :
    createPet ⟨[⟨1, "Rex", "dog", "Alice", "2020-01-01", 0, 0⟩], [], 1, 0⟩
        ⟨some "Rex", some "cat", some "Alice", some "2019-05-05"⟩ 7 =
      (⟨400, .errorMsg "Pet already exists"⟩,
       ⟨[⟨1, "Rex", "dog", "Alice", "2020-01-01", 0, 0⟩], [], 1, 0⟩) ∧
    createPet ⟨[⟨1, "Rex", "dog", "Alice", "2020-01-01", 0, 0⟩], [], 1, 0⟩
        ⟨some "Milo", some "cat", some "Alice", some "2019-05-05"⟩ 7 =
      (⟨201, .petRow ⟨2, "Milo", "cat", "Alice", "2019-05-05", 7, 7⟩⟩,
       ⟨[⟨1, "Rex", "dog", "Alice", "2020-01-01", 0, 0⟩,
         ⟨2, "Milo", "cat", "Alice", "2019-05-05", 7, 7⟩], [], 2, 0⟩) :=
  ⟨(createPet_unique_name_owner ⟨[⟨1, "Rex", "dog", "Alice", "2020-01-01", 0, 0⟩], [], 1, 0⟩
      "Rex" "cat" "Alice" "2019-05-05" 7 (by decide)).1 (by decide),
   (createPet_unique_name_owner ⟨[⟨1, "Rex", "dog", "Alice", "2020-01-01", 0, 0⟩], [], 1, 0⟩
      "Milo" "cat" "Alice" "2019-05-05" 7 (by decide)).2 (by decide)⟩

/-! ### Claim C7 -/

/-- Claim C7: updating an existing medical record with a body containing
only `reactions` overwrites only `reactions` and bumps `updated_at`; the
stored record_type, name, date and severity are carried over unchanged
from the existing row. -/
theorem updateRecord_reactions_only_merge (db : DB) (id : Nat) (r : RecordRow)
    (rx : String) (now : Nat) (h : findRecord db id = some r) :
    updateRecord db id ⟨none, none, none, some rx, none⟩ now =
      (⟨200, .recordRow { r with reactions := some rx, updated_at := now }⟩,
       { db with medical_records := db.medical_records.map (fun x =>
          if x.id == id then { r with reactions := some rx, updated_at := now }
          else x) }) := by
  unfold updateRecord
  rw [h]
  rfl

/-- Witness for `updateRecord_reactions_only_merge`: updating the stored
allergy record with body reactions 'itchy' keeps its type, name, date and
severity. -/
theorem updateRecord_reactions_only_merge_witness :
    updateRecord
      ⟨[⟨1, "Rex", "dog", "Alice", "2020-01-01", 0, 0⟩],
       [⟨1, 1, "allergy", "Pollen", some "2024-02-02", none, some "mild", 3, 3⟩], 1, 1⟩
      1 ⟨none, none, none, some "itchy", none⟩ 9 =
      (⟨200, .recordRow ⟨1, 1, "allergy", "Pollen", some "2024-02-02", some "itchy", some "mild", 3, 9⟩⟩,
       ⟨[⟨1, "Rex", "dog", "Alice", "2020-01-01", 0, 0⟩],
        [⟨1, 1, "allergy", "Pollen", some "2024-02-02", some "itchy", some "mild", 3, 9⟩], 1, 1⟩) := by
  have h := updateRecord_reactions_only_merge
    ⟨[⟨1, "Rex", "dog", "Alice", "2020-01-01", 0, 0⟩],
     [⟨1, 1, "allergy", "Pollen", some "2024-02-02", none, some "mild", 3, 3⟩], 1, 1⟩
    1 ⟨1, 1, "allergy", "Pollen", some "2024-02-02", none, some "mild", 3, 3⟩
    "itchy" 9 (by decide)
  simpa using h

/-! ### Claim C8 -/

/-- Claim C8, as stated, is false about null placement: PostgreSQL sorts
`ORDER BY date DESC` with nulls FIRST by default, so the null-dated
record comes before the dated one, not last as the claim requires. -/
theorem getRecordsByPetId_nulls_first :
    (getRecordsByPetId
      ⟨[⟨1, "Rex", "dog", "Alice", "2020-01-01", 0, 0⟩],
       [⟨1, 1, "vaccine", "Rabies", some "2024-03-01", none, none, 5, 5⟩,
        ⟨2, 1, "allergy", "Pollen", none, none, some "mild", 10, 10⟩], 1, 2⟩
      1).1 =
      ⟨200, .recordRows
        [⟨2, 1, "allergy", "Pollen", none, none, some "mild", 10, 10⟩,
         ⟨1, 1, "vaccine", "Rabies", some "2024-03-01", none, none, 5, 5⟩]⟩ ∧
    (getRecordsByPetId
      ⟨[⟨1, "Rex", "dog", "Alice", "2020-01-01", 0, 0⟩],
       [⟨1, 1, "vaccine", "Rabies", some "2024-03-01", none, none, 5, 5⟩,
        ⟨2, 1, "allergy", "Pollen", none, none, some "mild", 10, 10⟩], 1, 2⟩
      1).1 ≠
      ⟨200, .recordRows
        [⟨1, 1, "vaccine", "Rabies", some "2024-03-01", none, none, 5, 5⟩,
         ⟨2, 1, "allergy", "Pollen", none, none, some "mild", 10, 10⟩]⟩ := by
  constructor
  · rfl
  · decide

/-- Claim C8 amended: listing records of a missing pet returns 404 'Pet
not found' (never an empty array); for an existing pet it returns exactly
the records with that pet_id, ordered by `recordLE` — date descending
with null dates FIRST (the PostgreSQL default for DESC), ties broken by
creation time descending — leaving the store unchanged. -/
theorem getRecordsByPetId_order (db : DB) (pid : Nat) :
    (findPet db pid = none →
      getRecordsByPetId db pid = (⟨404, .errorMsg "Pet not found"⟩, db)) ∧
    (∀ p, findPet db pid = some p →
      (getRecordsByPetId db pid).2 = db ∧
      ∃ l, (getRecordsByPetId db pid).1 = ⟨200, .recordRows l⟩ ∧
        l.Perm (db.medical_records.filter (fun r => r.pet_id == pid)) ∧
        l.Sorted recordLE) := by
  constructor
  · intro h; simp [getRecordsByPetId, h]
  · intro p h
    refine ⟨by simp [getRecordsByPetId, h],
      List.insertionSort recordLE (db.medical_records.filter (fun r => r.pet_id == pid)),
      by simp [getRecordsByPetId, h],
      List.perm_insertionSort _ _,
      @List.sorted_insertionSort _ recordLE _ ⟨recordLE_total⟩ ⟨recordLE_trans⟩ _⟩

/-- Witness for `getRecordsByPetId_order`: 404 on a pet id absent from
the store; list, permutation and sortedness facts on pet 1. -/
theorem getRecordsByPetId_order_witness :
    getRecordsByPetId
      ⟨[⟨1, "Rex", "dog", "Alice", "2020-01-01", 0, 0⟩],
       [⟨1, 1, "vaccine", "Rabies", some "2024-03-01", none, none, 5, 5⟩], 1, 1⟩ 99 =
      (⟨404, .errorMsg "Pet not found"⟩,
       ⟨[⟨1, "Rex", "dog", "Alice", "2020-01-01", 0, 0⟩],
        [⟨1, 1, "vaccine", "Rabies", some "2024-03-01", none, none, 5, 5⟩], 1, 1⟩) ∧
    ((getRecordsByPetId
      ⟨[⟨1, "Rex", "dog", "Alice", "2020-01-01", 0, 0⟩],
       [⟨1, 1, "vaccine", "Rabies", some "2024-03-01", none, none, 5, 5⟩], 1, 1⟩ 1).2 =
      ⟨[⟨1, "Rex", "dog", "Alice", "2020-01-01", 0, 0⟩],
       [⟨1, 1, "vaccine", "Rabies", some "2024-03-01", none, none, 5, 5⟩], 1, 1⟩ ∧
     ∃ l, (getRecordsByPetId
      ⟨[⟨1, "Rex", "dog", "Alice", "2020-01-01", 0, 0⟩],
       [⟨1, 1, "vaccine", "Rabies", some "2024-03-01", none, none, 5, 5⟩], 1, 1⟩ 1).1 =
        ⟨200, .recordRows l⟩ ∧
      l.Perm ((⟨[⟨1, "Rex", "dog", "Alice", "2020-01-01", 0, 0⟩],
       [⟨1, 1, "vaccine", "Rabies", some "2024-03-01", none, none, 5, 5⟩], 1, 1⟩ :
          DB).medical_records.filter (fun r => r.pet_id == 1)) ∧
      l.Sorted recordLE) :=
  ⟨(getRecordsByPetId_order
      ⟨[⟨1, "Rex", "dog", "Alice", "2020-01-01", 0, 0⟩],
       [⟨1, 1, "vaccine", "Rabies", some "2024-03-01", none, none, 5, 5⟩], 1, 1⟩ 99).1
      (by decide),
   (getRecordsByPetId_order
      ⟨[⟨1, "Rex", "dog", "Alice", "2020-01-01", 0, 0⟩],
       [⟨1, 1, "vaccine", "Rabies", some "2024-03-01", none, none, 5, 5⟩], 1, 1⟩ 1).2
      ⟨1, "Rex", "dog", "Alice", "2020-01-01", 0, 0⟩ (by decide)⟩

/-! ### Claim C9 -/

/-- Claim C9, as stated, is false for partial bodies: the update schema
makes every field optional, so the empty body passes validation, but the
handler then sends the absent fields as SQL NULL into `NOT NULL` columns;
the store rejects the UPDATE and the handler answers 500, not 200 with an
updated row. -/
theorem updatePet_partial_body_500 :
    updatePetValidate ⟨none, none, none, none⟩ = [] ∧
    updatePet ⟨[⟨1, "Rex", "dog", "Alice", "2020-01-01", 0, 0⟩], [], 1, 0⟩
        1 ⟨none, none, none, none⟩ 7 =
      (⟨500, .internalError⟩,
       ⟨[⟨1, "Rex", "dog", "Alice", "2020-01-01", 0, 0⟩], [], 1, 0⟩) ∧
    (updatePet ⟨[⟨1, "Rex", "dog", "Alice", "2020-01-01", 0, 0⟩], [], 1, 0⟩
        1 ⟨none, none, none, none⟩ 7).1.status ≠ 200 := by
  refine ⟨rfl, rfl, ?_⟩
  decide

/-- Claim C9 amended: a pet update on a missing id fails with 404 'Pet
not found' and changes nothing, whatever the body; on an existing id,
a validated body supplying all four fields replaces all four editable
columns unconditionally with the request values (full replace, no
merging with stored values), bumps `updated_at`, and returns the updated
row. -/
theorem updatePet_full_replace (db : DB) (id : Nat) (now : Nat) :
    (∀ b, findPet db id = none →
      updatePet db id b now = (⟨404, .errorMsg "Pet not found"⟩, db)) ∧
    (∀ p nm aty ow dob, findPet db id = some p →
      updatePetValidate ⟨some nm, some aty, some ow, some dob⟩ = [] →
      updatePet db id ⟨some nm, some aty, some ow, some dob⟩ now =
        (⟨200, .petRow { p with name := nm, animal_type := aty, owner_name := ow,
                                date_of_birth := dob, updated_at := now }⟩,
         { db with pets := db.pets.map (fun q =>
            if q.id == id then
              { p with name := nm, animal_type := aty, owner_name := ow,
                       date_of_birth := dob, updated_at := now }
            else q) })) := by
  constructor
  · intro b h; simp [updatePet, h]
  · intro p nm aty ow dob h hv
    simp [updatePet, h, hv]

/-- Witness for `updatePet_full_replace`: 404 on a missing id; a full
valid body on pet 1 replaces all four fields and bumps `updated_at`. -/
theorem updatePet_full_replace_witness :
    updatePet ⟨[⟨1, "Rex", "dog", "Alice", "2020-01-01", 0, 0⟩], [], 1, 0⟩
        99 ⟨none, none, none, none⟩ 7 =
      (⟨404, .errorMsg "Pet not found"⟩,
       ⟨[⟨1, "Rex", "dog", "Alice", "2020-01-01", 0, 0⟩], [], 1, 0⟩) ∧
    updatePet ⟨[⟨1, "Rex", "dog", "Alice", "2020-01-01", 0, 0⟩], [], 1, 0⟩
        1 ⟨some "Max", some "cat", some "Carol", some "2019-09-09"⟩ 7 =
      (⟨200, .petRow ⟨1, "Max", "cat", "Carol", "2019-09-09", 0, 7⟩⟩,
       ⟨[⟨1, "Max", "cat", "Carol", "2019-09-09", 0, 7⟩], [], 1, 0⟩) := by
  have h1 := (updatePet_full_replace
    ⟨[⟨1, "Rex", "dog", "Alice", "2020-01-01", 0, 0⟩], [], 1, 0⟩ 99 7).1
    ⟨none, none, none, none⟩ (by decide)
  have h2 := (updatePet_full_replace
    ⟨[⟨1, "Rex", "dog", "Alice", "2020-01-01", 0, 0⟩], [], 1, 0⟩ 1 7).2
    ⟨1, "Rex", "dog", "Alice", "2020-01-01", 0, 0⟩
    "Max" "cat" "Carol" "2019-09-09" (by decide) (by decide)
  exact ⟨h1, by simpa using h2⟩

end NovelliaPets
